import Mathlib

/-
Verification of the pygraph artist registry / legend / scale core.

The Python source (pygraph.py, artists.py, mesh.py, errors.py) is shallowly
embedded below.  Python dicts become association lists (insertion ordered,
unique keys on all reachable states), numpy float arrays become `List ℚ`
(claims only compare and take min/max of coordinates, never round), and every
raising operation returns its post-mutation state together with an optional
error kind, so that partial mutation before a raise is observable.
-/

namespace Pygraph

/-- Error kinds, one per distinct raise site in the source.  The spec's
taxonomy maps onto them as follows: `shapeMismatch` = the size-mismatch
`AssertionError`s, `invalidOption` = `AssertionError(e.OptionsError ...)`,
`duplicateName` = `AssertionError(e.IndexError ..., overwrite=True)` raised by
`add_artist`, `notFound` = the not-found `assert e.IndexError` checks,
`invalidSelection` = the Legend selector asserts, `keyError` = a Python
`KeyError` from `dict.pop`/`dict[...]` on a missing key, `attributeError` = a
Python `AttributeError` (attribute access on `None` or on a class that lacks
the attribute), `valueError` = numpy's `ValueError` from `np.min`/`np.max`
on a zero-size array. -/
inductive Err where
  | shapeMismatch
  | invalidOption
  | duplicateName
  | notFound
  | slotOccupied
  | invalidSelection
  | keyError
  | attributeError
  | valueError
deriving DecidableEq

/-- Binary minimum on ℚ, as `np.min` folds it. -/
def qmin (a b : ℚ) : ℚ := if a ≤ b then a else b

/-- Binary maximum on ℚ, as `np.max` folds it. -/
def qmax (a b : ℚ) : ℚ := if a ≤ b then b else a

/-- Semantics of `np.min` on a 1-d array: `none` models the `ValueError`
raised on a zero-size array. -/
def npMin : List ℚ → Option ℚ
  | [] => none
  | x :: xs => some (xs.foldl qmin x)

/-- Semantics of `np.max` on a 1-d array. -/
def npMax : List ℚ → Option ℚ
  | [] => none
  | x :: xs => some (xs.foldl qmax x)

/-- The named-color set `Artist.COLOR_OPTIONS`.  In the source it is
`mcolors.BASE_COLORS | mcolors.TABLEAU_COLORS | mcolors.CSS4_COLORS`, a fixed
finite set of strings from the external matplotlib library; the BASE and
TABLEAU keys are listed exactly, the CSS4 portion is external data omitted
here (no claim depends on a specific member, only on membership). -/
def COLOR_OPTIONS : List String :=
  ["b", "g", "r", "c", "m", "y", "k", "w",
   "tab:blue", "tab:orange", "tab:green", "tab:red", "tab:purple",
   "tab:brown", "tab:pink", "tab:gray", "tab:olive", "tab:cyan"]

/-- The linestyle set `Line.LS_OPTIONS`.  The source's set literal reads
`{'solid', 'dashed', 'dotted', 'dashdot', '-', '--' ':', '-.'}`: the comma
between `'--'` and `':'` is missing, so Python concatenates the two adjacent
string literals into the single token `'--:'`. -/
def LS_OPTIONS : List String :=
  ["solid", "dashed", "dotted", "dashdot", "-", "--:", "-."]

/-- The pivot set `Arrows.PIVOT_OPTIONS`. -/
def PIVOT_OPTIONS : List String := ["tip", "mid", "tail"]

/-- The autoscale policy set `Figure.AUTOSCALE_OPTIONS`. -/
def AUTOSCALE_OPTIONS : List String := ["all", "width", "height", "none"]

/-- The `coord_type` option keys of `Text.COORD_OPTIONS`. -/
def COORD_OPTIONS : List String := ["data", "fraction"]

/-- A Points `color`: either one named color string or a flattened per-point
numeric array. -/
inductive PColor where
  | named (s : String)
  | numeric (cs : List ℚ)
deriving DecidableEq

/-- A Points `size`: either one scalar or a flattened per-point numeric
array. -/
inductive PSize where
  | scalar (q : ℚ)
  | numeric (qs : List ℚ)
deriving DecidableEq

/-- An Arrows `color`: either one scalar or a flattened per-point numeric
array. -/
inductive AColor where
  | scalar (q : ℚ)
  | numeric (cs : List ℚ)
deriving DecidableEq

/-- The `Line` artist: flattened `_xdata`/`_ydata`, `_name`, `_c`, `_lw`,
`_ls`. -/
structure Line where
  name : String
  xdata : List ℚ
  ydata : List ℚ
  c : String
  lw : ℚ
  ls : String
deriving DecidableEq

/-- The `Straight` artist: a `Line` through one point `(x, y)` with an extra
direction `(_dx, _dy)`; `xdata`/`ydata` hold the single point, matching the
one-element numpy arrays the source stores. -/
structure Straight where
  name : String
  xdata : List ℚ
  ydata : List ℚ
  dx : ℚ
  dy : ℚ
  c : String
  lw : ℚ
  ls : String
deriving DecidableEq

/-- The `Points` artist. -/
structure Points where
  name : String
  xdata : List ℚ
  ydata : List ℚ
  c : PColor
  s : PSize
  t : String
deriving DecidableEq

/-- The `Arrows` artist: `_uv` is kept as the two flattened rows `u`, `v`. -/
structure Arrows where
  name : String
  xdata : List ℚ
  ydata : List ℚ
  u : List ℚ
  v : List ℚ
  c : AColor
  pivot : String
deriving DecidableEq

/-- The `Text` artist: one-point `xdata`/`ydata`, plus text and style. -/
structure Text where
  name : String
  xdata : List ℚ
  ydata : List ℚ
  txt : String
  c : String
  s : ℚ
  coordType : String
  offX : ℚ
  offY : ℚ
deriving DecidableEq

/-- The closed set of 2D artist variants dispatched on by `_add_mpl_artist`. -/
inductive Artist where
  | line (a : Line)
  | straight (a : Straight)
  | points (a : Points)
  | arrows (a : Arrows)
  | text (a : Text)
deriving DecidableEq

/-- What an artist's `get_color` returns: a named-color string, a scalar, or
a numeric array. -/
inductive ColorData where
  | s (v : String)
  | q (v : ℚ)
  | arr (vs : List ℚ)
deriving DecidableEq

/-- The `get_name` accessor. -/
def Artist.get_name : Artist → String
  | .line a => a.name
  | .straight a => a.name
  | .points a => a.name
  | .arrows a => a.name
  | .text a => a.name

/-- The `get_xdata` accessor (Straight and Text yield their single point). -/
def Artist.get_xdata : Artist → List ℚ
  | .line a => a.xdata
  | .straight a => a.xdata
  | .points a => a.xdata
  | .arrows a => a.xdata
  | .text a => a.xdata

/-- The `get_ydata` accessor. -/
def Artist.get_ydata : Artist → List ℚ
  | .line a => a.ydata
  | .straight a => a.ydata
  | .points a => a.ydata
  | .arrows a => a.ydata
  | .text a => a.ydata

/-- The `isinstance(artist, Text)` test used by the Legend. -/
def Artist.isText : Artist → Bool
  | .text _ => true
  | _ => false

/-- The `get_color` accessor, per variant. -/
def Artist.get_color : Artist → ColorData
  | .line a => .s a.c
  | .straight a => .s a.c
  | .points a =>
      match a.c with
      | .named s => .s s
      | .numeric cs => .arr cs
  | .arrows a =>
      match a.c with
      | .scalar q => .q q
      | .numeric cs => .arr cs
  | .text a => .s a.c

/-- The validation `Points.set_color` performs: a string must be a member of
`COLOR_OPTIONS`, anything else is flattened and its size must equal the point
count `n`. -/
def pointsColorCheck (n : Nat) (c : PColor) : Option Err :=
  match c with
  | .named s => if COLOR_OPTIONS.contains s then none else some .invalidOption
  | .numeric cs => if cs.length == n then none else some .shapeMismatch

/-- The validation `Points.set_size` performs: a scalar is stored as is,
anything else is flattened and its size must equal the point count `n`. -/
def pointsSizeCheck (n : Nat) (s : PSize) : Option Err :=
  match s with
  | .scalar _ => none
  | .numeric qs => if qs.length == n then none else some .shapeMismatch

/-- The validation `Arrows.set_color` performs: a scalar is stored as is,
anything else is flattened and its size must equal the point count `n`. -/
def arrowsColorCheck (n : Nat) (c : AColor) : Option Err :=
  match c with
  | .scalar _ => none
  | .numeric cs => if cs.length == n then none else some .shapeMismatch

/-- `Points.set_color`: on failure the assert raises before `self._c` is
assigned, so the stored color is unchanged. -/
def Points.set_color (p : Points) (c : PColor) : Points × Option Err :=
  match pointsColorCheck p.xdata.length c with
  | some err => (p, some err)
  | none => ({ p with c := c }, none)

/-- `Points.set_size`. -/
def Points.set_size (p : Points) (s : PSize) : Points × Option Err :=
  match pointsSizeCheck p.xdata.length s with
  | some err => (p, some err)
  | none => ({ p with s := s }, none)

/-- `Line.set_linestyle`: asserts membership in `LS_OPTIONS` before
assigning `self._ls`. -/
def Line.set_linestyle (l : Line) (ls : String) : Line × Option Err :=
  if LS_OPTIONS.contains ls then ({ l with ls := ls }, none)
  else (l, some .invalidOption)

/-- `Line.set_color`: asserts membership in `COLOR_OPTIONS`. -/
def Line.set_color (l : Line) (c : String) : Line × Option Err :=
  if COLOR_OPTIONS.contains c then ({ l with c := c }, none)
  else (l, some .invalidOption)

/-- `Line.__init__`: `Artist.__init__` asserts the flattened `x` and `y`
sizes match, then `set_color`, `set_linewidth` (unvalidated) and
`set_linestyle` run in that order. -/
def mkLine (x y : List ℚ) (name : String) (c : String) (lw : ℚ)
    (ls : String) : Except Err Line :=
  if x.length == y.length then
    if COLOR_OPTIONS.contains c then
      if LS_OPTIONS.contains ls then .ok ⟨name, x, y, c, lw, ls⟩
      else .error .invalidOption
    else .error .invalidOption
  else .error .shapeMismatch

/-- `Straight.__init__`: delegates to `Line.__init__` on the single point
`(x, y)` (sizes 1 = 1 always hold), then stores the direction. -/
def mkStraight (x y dx dy : ℚ) (name : String) (c : String) (lw : ℚ)
    (ls : String) : Except Err Straight :=
  if COLOR_OPTIONS.contains c then
    if LS_OPTIONS.contains ls then .ok ⟨name, [x], [y], dx, dy, c, lw, ls⟩
    else .error .invalidOption
  else .error .invalidOption

/-- `Points.__init__`: base shape assert, then `set_color`, then
`set_size`; the marker `t` is stored unvalidated. -/
def mkPoints (x y : List ℚ) (name : String) (c : PColor) (s : PSize)
    (t : String) : Except Err Points :=
  if x.length == y.length then
    match pointsColorCheck x.length c with
    | some err => .error err
    | none =>
        match pointsSizeCheck x.length s with
        | some err => .error err
        | none => .ok ⟨name, x, y, c, s, t⟩
  else .error .shapeMismatch

/-- `Arrows.__init__`: base shape assert on `x`/`y`, then the chained assert
`u.size == v.size == self._xdata.size`, then `set_color`; `pivot` is stored
unvalidated by `__init__`. -/
def mkArrows (x y u v : List ℚ) (name : String) (c : AColor)
    (pivot : String) : Except Err Arrows :=
  if x.length == y.length then
    if u.length == v.length && v.length == x.length then
      match arrowsColorCheck x.length c with
      | some err => .error err
      | none => .ok ⟨name, x, y, u, v, c, pivot⟩
    else .error .shapeMismatch
  else .error .shapeMismatch

/-- Association-list model of a Python dict (insertion ordered; every
reachable dict has unique keys).  Key membership test `n in d`. -/
def keyMem (l : List (String × α)) (n : String) : Bool :=
  l.any (fun e => e.1 == n)

/-- Dict lookup `d[n]` as an option. -/
def dictGet (l : List (String × α)) (n : String) : Option α :=
  (l.find? (fun e => e.1 == n)).map (fun e => e.2)

/-- Dict removal `d.pop(n)` of a present key (on dicts, which never hold a
duplicate key, dropping every pair with key `n` is exactly `pop`). -/
def dictPop (l : List (String × α)) (n : String) : List (String × α) :=
  l.filter (fun e => e.1 != n)

/-- Dict assignment `d[n] = v`: update in place when present, else append. -/
def dictSet (l : List (String × α)) (n : String) (v : α) :
    List (String × α) :=
  if keyMem l n then l.map (fun e => if e.1 == n then (n, v) else e)
  else l ++ [(n, v)]

/-- Number of entries stored under key `n`. -/
def countKey (l : List (String × α)) (n : String) : Nat :=
  (l.filter (fun e => e.1 == n)).length

/-- `ColorMesh`: two 2D grids `X`, `Y` and a 2D color grid `C` of identical
shape, plus a colormap token (`get_cmap` exists on this class only). -/
structure ColorMesh where
  X : List (List ℚ)
  Y : List (List ℚ)
  C : List (List ℚ)
  cmap : String
deriving DecidableEq

/-- What `_add_mpl_artist` stores per name in `_mpl_artists`: the drawn
artist, the label it was drawn with, and its visibility flag. -/
structure MplArtist where
  artist : Artist
  label : String
  visible : Bool
deriving DecidableEq

/-- The `Legend` state: the subset mapping `_artists` and the visibility of
the legend panel. -/
structure LegendSt where
  artists : List (String × Artist)
  visible : Bool
deriving DecidableEq

/-- An attached colorbar, keyed by its `Normalize(vmin, vmax)` range and the
colormap it was built from. -/
structure Colorbar where
  vmin : ℚ
  vmax : ℚ
  cmap : String
deriving DecidableEq

/-- The `Figure` state: `_artists`, `_mpl_artists`, the singleton
`_color_mesh` slot, the `_autoscale` policy, the axes limits set so far, the
attached `Legend`, and the colorbars added to the figure. -/
structure FigState where
  artists : List (String × Artist)
  mplArtists : List (String × MplArtist)
  colorMesh : Option ColorMesh
  autoscale : String
  xlim : Option (ℚ × ℚ)
  ylim : Option (ℚ × ℚ)
  legend : LegendSt
  colorbars : List Colorbar
deriving DecidableEq

/-- A freshly constructed `Figure` (default `autoscale='none'`; `__init__`
builds an empty `Legend`, which `_update` marks hidden). -/
def emptyFig : FigState :=
  { artists := []
    mplArtists := []
    colorMesh := none
    autoscale := "none"
    xlim := none
    ylim := none
    legend := { artists := [], visible := false }
    colorbars := [] }

/-- `_Figure.remove_artist(name)`: asserts `name in self._artists`
(`notFound` otherwise), pops the artist, then pops and destroys the renderer
handle (a desynchronized state would raise `KeyError` after the first pop).
The attached Legend is not touched. -/
def remove_artist (fig : FigState) (name : String) : FigState × Option Err :=
  if keyMem fig.artists name then
    let fig1 := { fig with artists := dictPop fig.artists name }
    if keyMem fig.mplArtists name then
      ({ fig1 with mplArtists := dictPop fig.mplArtists name }, none)
    else (fig1, some .keyError)
  else (fig, some .notFound)

/-- The tail of `_Figure.add_artist` after the duplicate check: default the
label to the name, materialize the renderer artist into `_mpl_artists`, then
store the artist in `_artists`. -/
def addArtistStore (fig : FigState) (a : Artist) (label : String) :
    FigState × Option Err :=
  let lbl := if label == "" then a.get_name else label
  ({ fig with
      mplArtists := dictSet fig.mplArtists a.get_name ⟨a, lbl, true⟩
      artists := dictSet fig.artists a.get_name a }, none)

/-- `_Figure.add_artist(artist, label, overwrite)`: a present name raises
`duplicateName` unless `overwrite`, in which case `remove_artist` runs first
over the same path as a direct removal. -/
def add_artist (fig : FigState) (a : Artist) (label : String)
    (overwrite : Bool) : FigState × Option Err :=
  if keyMem fig.artists a.get_name then
    if overwrite then
      match remove_artist fig a.get_name with
      | (fig1, some err) => (fig1, some err)
      | (fig1, none) => addArtistStore fig1 a label
    else (fig, some .duplicateName)
  else addArtistStore fig a label

/-- `_Figure.add_colorbar(name=None)`: a given name is asserted to be a key
of `_artists` (`notFound` otherwise) and resolves to that artist, else the
singleton `_color_mesh` is used unchecked.  `np.min`/`np.max` run over the
object's `get_color()` data (a `ValueError` on an empty numeric array), then
`ScalarMappable(norm, obj.get_cmap())` is built: no `Artist` subclass in the
repository defines `get_cmap`, so the artist path raises `AttributeError`
there, and a `None` mesh raises `AttributeError` already at
`None.get_color()`.  Only the mesh path reaches `colorbar(...)`. -/
def add_colorbar (fig : FigState) (name : Option String) :
    FigState × Option Err :=
  match name with
  | some n =>
      match dictGet fig.artists n with
      | none => (fig, some .notFound)
      | some a =>
          match a.get_color with
          | .arr [] => (fig, some .valueError)
          | _ => (fig, some .attributeError)
  | none =>
      match fig.colorMesh with
      | none => (fig, some .attributeError)
      | some m =>
          match npMin m.C.flatten, npMax m.C.flatten with
          | some mn, some mx =>
              ({ fig with colorbars := fig.colorbars ++ [⟨mn, mx, m.cmap⟩] },
               none)
          | _, _ => (fig, some .valueError)

/-- The x data `Figure.update_scale` gathers: with no artists, the mesh grid
(`np.min` over a 2D grid equals the min over its flattened rows); otherwise
the concatenation of every artist's `get_xdata()` with the flattened mesh
grid appended when a mesh is present. -/
def gatherX (fig : FigState) : List ℚ :=
  if fig.artists.length == 0 then
    match fig.colorMesh with
    | some m => m.X.flatten
    | none => []
  else
    (fig.artists.map (fun e => e.2.get_xdata)).flatten ++
      (match fig.colorMesh with
       | some m => m.X.flatten
       | none => [])

/-- The y data `Figure.update_scale` gathers, symmetrically. -/
def gatherY (fig : FigState) : List ℚ :=
  if fig.artists.length == 0 then
    match fig.colorMesh with
    | some m => m.Y.flatten
    | none => []
  else
    (fig.artists.map (fun e => e.2.get_ydata)).flatten ++
      (match fig.colorMesh with
       | some m => m.Y.flatten
       | none => [])

/-- `Figure.update_scale`: a no-op when no artist and no mesh are present;
otherwise `x_min, x_max = np.min(xdata), np.max(xdata)` and then the y pair
are computed BEFORE the `match` on the policy (so empty gathered data raises
`ValueError` even under policy `'none'`), and finally the limits are applied
according to `_autoscale`. -/
def update_scale (fig : FigState) : FigState × Option Err :=
  if fig.artists.length > 0 || fig.colorMesh.isSome then
    match npMin (gatherX fig), npMax (gatherX fig) with
    | some xmin, some xmax =>
        match npMin (gatherY fig), npMax (gatherY fig) with
        | some ymin, some ymax =>
            match fig.autoscale with
            | "all" =>
                ({ fig with xlim := some (xmin, xmax),
                            ylim := some (ymin, ymax) }, none)
            | "width" => ({ fig with xlim := some (xmin, xmax) }, none)
            | "height" => ({ fig with ylim := some (ymin, ymax) }, none)
            | _ => (fig, none)
        | _, _ => (fig, some .valueError)
    | _, _ => (fig, some .valueError)
  else (fig, none)

/-- A legend selector: the `names` argument is either a string (only `'all'`
is accepted) or an explicit sequence of names. -/
inductive Selector where
  | strSel (s : String)
  | listSel (ns : List String)

/-- Validity of one explicit legend name: it must be a key of the figure's
`_artists` and must not refer to a `Text` artist. -/
def validSel (fig : FigState) (n : String) : Bool :=
  match dictGet fig.artists n with
  | some a => !a.isText
  | none => false

/-- `Legend._update`: collects the renderer handle of every name in the
subset (a dangling name raises `KeyError`), then shows the panel when the
subset is non-empty and hides it when it is empty. -/
def legendUpdate (fig : FigState) : FigState × Option Err :=
  if fig.legend.artists.all (fun e => keyMem fig.mplArtists e.1) then
    if fig.legend.artists.length > 0 then
      ({ fig with legend := { fig.legend with visible := true } }, none)
    else
      ({ fig with legend := { fig.legend with visible := false } }, none)
  else (fig, some .keyError)

/-- `Legend.add(names)`: the string form accepts only `'all'`, which
REPLACES the subset by every non-Text artist of the figure; an explicit
sequence is validated as a whole (`assert all(...)`) before the merge
`self._artists |= {...}`, so an invalid name aborts with no partial add. -/
def legendAdd (fig : FigState) (sel : Selector) : FigState × Option Err :=
  match sel with
  | .strSel s =>
      if s == "all" then
        legendUpdate { fig with legend :=
          { fig.legend with
            artists := fig.artists.filter (fun e => !e.2.isText) } }
      else (fig, some .invalidSelection)
  | .listSel ns =>
      if ns.all (fun n => validSel fig n) then
        let merged := ns.foldl
          (fun acc n =>
            match dictGet fig.artists n with
            | some a => dictSet acc n a
            | none => acc)   -- unreachable: every n was just validated
          fig.legend.artists
        legendUpdate { fig with legend :=
          { fig.legend with artists := merged } }
      else (fig, some .invalidSelection)

/-- The explicit-sequence loop of `Legend.remove`: each name is validated
and popped one at a time, so a failure leaves the names already processed
removed from `sub` (an invalid name raises `invalidSelection`; a valid name
absent from the subset makes `pop` raise `KeyError`). -/
def legendRemoveGo (fig : FigState) (sub : List (String × Artist)) :
    List String → List (String × Artist) × Option Err
  | [] => (sub, none)
  | n :: rest =>
      if validSel fig n then
        if keyMem sub n then legendRemoveGo fig (dictPop sub n) rest
        else (sub, some .keyError)
      else (sub, some .invalidSelection)

/-- `Legend.remove(names)`: the string form accepts only `'all'`, which
clears the subset; an explicit sequence runs the per-name loop and keeps
whatever partial state the loop reached when it raises. -/
def legendRemove (fig : FigState) (sel : Selector) : FigState × Option Err :=
  match sel with
  | .strSel s =>
      if s == "all" then
        legendUpdate { fig with legend := { fig.legend with artists := [] } }
      else (fig, some .invalidSelection)
  | .listSel ns =>
      match legendRemoveGo fig fig.legend.artists ns with
      | (sub, some err) =>
          ({ fig with legend := { fig.legend with artists := sub } },
           some err)
      | (sub, none) =>
          legendUpdate { fig with legend :=
            { fig.legend with artists := sub } }

/-! Association-list (dict) lemmas. -/

lemma keyMem_append (l1 l2 : List (String × α)) (n : String) :
    keyMem (l1 ++ l2) n = (keyMem l1 n || keyMem l2 n) := by
  simp [keyMem, List.any_append]

lemma keyMem_dictPop (l : List (String × α)) (n : String) :
    keyMem (dictPop l n) n = false := by
  simp [keyMem, dictPop, List.any_eq_true, List.mem_filter]

lemma dictPop_of_not_mem (l : List (String × α)) (n : String)
    (h : keyMem l n = false) : dictPop l n = l := by
  simp [keyMem] at h
  exact List.filter_eq_self.mpr (fun e he => by simpa using h e.1 e.2 he)

lemma dictPop_append (l1 l2 : List (String × α)) (n : String) :
    dictPop (l1 ++ l2) n = dictPop l1 n ++ dictPop l2 n := by
  simp [dictPop, List.filter_append]

lemma dictSet_of_not_mem (l : List (String × α)) (n : String) (v : α)
    (h : keyMem l n = false) : dictSet l n v = l ++ [(n, v)] := by
  simp [dictSet, h]

lemma dictGet_append_right (l1 l2 : List (String × α)) (n : String)
    (h : keyMem l1 n = false) : dictGet (l1 ++ l2) n = dictGet l2 n := by
  simp [keyMem] at h
  rw [dictGet, List.find?_append]
  have hnone : l1.find? (fun e => e.1 == n) = none :=
    List.find?_eq_none.mpr (fun e he => by simpa using h e.1 e.2 he)
  rw [hnone]
  rfl

lemma countKey_append (l1 l2 : List (String × α)) (n : String) :
    countKey (l1 ++ l2) n = countKey l1 n + countKey l2 n := by
  simp [countKey, List.filter_append]

lemma countKey_dictPop (l : List (String × α)) (n : String) :
    countKey (dictPop l n) n = 0 := by
  simp [countKey, dictPop, List.filter_filter, List.length_eq_zero,
    List.filter_eq_nil_iff]

/-! Claim theorems. -/

/-- C1: for a figure whose registry already holds `p.get_name` (with its
renderer handle, as every reachable state does), `add_artist p` with
`overwrite := false` fails with the duplicate-name error and returns the
state unchanged, while `overwrite := true` succeeds, leaves exactly one
entry under that name, and that entry stores `p` (last-write-wins, removal
running through the `remove_artist` path first). -/
theorem add_artist_duplicate_and_overwrite (fig : FigState) (p : Artist)
    (label : String)
    (hmem : keyMem fig.artists p.get_name = true)
    (hmpl : keyMem fig.mplArtists p.get_name = true) :
    add_artist fig p label false = (fig, some Err.duplicateName) ∧
    (add_artist fig p label true).2 = none ∧
    countKey (add_artist fig p label true).1.artists p.get_name = 1 ∧
    dictGet (add_artist fig p label true).1.artists p.get_name = some p := by
  have hrem : remove_artist fig p.get_name =
      ({ fig with artists := dictPop fig.artists p.get_name,
                  mplArtists := dictPop fig.mplArtists p.get_name }, none) := by
    simp [remove_artist, hmem, hmpl]
  have hset : dictSet (dictPop fig.artists p.get_name) p.get_name p =
      dictPop fig.artists p.get_name ++ [(p.get_name, p)] :=
    dictSet_of_not_mem _ _ _ (keyMem_dictPop _ _)
  refine ⟨by simp [add_artist, hmem], ?_, ?_, ?_⟩
  · simp [add_artist, hmem, hrem, addArtistStore]
  · simp only [add_artist, hmem, if_true, hrem, addArtistStore, hset]
    rw [countKey_append, countKey_dictPop]
    simp [countKey]
  · simp only [add_artist, hmem, if_true, hrem, addArtistStore, hset]
    rw [dictGet_append_right _ _ _ (keyMem_dictPop _ _)]
    simp [dictGet]

/-- Witness for C1 at a concrete figure holding a line named `a` and a
second, different line also named `a`. -/
def figOneLine : FigState :=
  (add_artist emptyFig (Artist.line ⟨"a", [0], [0], "k", 1, "solid"⟩)
    "" false).1

/-- The second artist, same name `a`, different data. -/
def lineA2 : Artist := Artist.line ⟨"a", [1, 2], [3, 4], "b", 2, "dashed"⟩

theorem add_artist_duplicate_and_overwrite_witness :
    add_artist figOneLine lineA2 "" false =
      (figOneLine, some Err.duplicateName) ∧
    (add_artist figOneLine lineA2 "" true).2 = none ∧
    countKey (add_artist figOneLine lineA2 "" true).1.artists
      lineA2.get_name = 1 ∧
    dictGet (add_artist figOneLine lineA2 "" true).1.artists
      lineA2.get_name = some lineA2 :=
  add_artist_duplicate_and_overwrite figOneLine lineA2 ""
    (by decide) (by decide)

/-- C9: adding a fresh-named artist and then removing that name returns the
figure to exactly its previous state (both name-keyed mappings, and every
other observable field, are restored). -/
theorem add_then_remove_roundtrip (fig : FigState) (p : Artist)
    (label : String)
    (h1 : keyMem fig.artists p.get_name = false)
    (h2 : keyMem fig.mplArtists p.get_name = false) :
    (add_artist fig p label false).2 = none ∧
    remove_artist (add_artist fig p label false).1 p.get_name =
      (fig, none) := by
  have hadd : add_artist fig p label false =
      ({ fig with
          mplArtists := fig.mplArtists ++
            [(p.get_name, ⟨p, if label == "" then p.get_name else label,
              true⟩)],
          artists := fig.artists ++ [(p.get_name, p)] }, none) := by
    simp [add_artist, h1, addArtistStore, dictSet_of_not_mem _ _ _ h1,
      dictSet_of_not_mem _ _ _ h2]
  refine ⟨by simp [hadd], ?_⟩
  rw [hadd]
  simp only [remove_artist, keyMem_append, h1, h2, keyMem, List.any_cons,
    beq_self_eq_true, Bool.true_or, List.any_nil, Bool.or_false,
    Bool.false_or, if_true, dictPop_append, dictPop_of_not_mem _ _ h1,
    dictPop_of_not_mem _ _ h2]
  simp [dictPop]

/-- Witness for C9: a fresh line named `b` added to the one-line figure and
removed again. -/
def lineB : Artist := Artist.line ⟨"b", [5], [6], "g", 1, "dotted"⟩

theorem add_then_remove_roundtrip_witness :
    (add_artist figOneLine lineB "lbl" false).2 = none ∧
    remove_artist (add_artist figOneLine lineB "lbl" false).1
      lineB.get_name = (figOneLine, none) :=
  add_then_remove_roundtrip figOneLine lineB "lbl" (by decide) (by decide)

/-- C6: with valid style arguments, construction of each coordinate-carrying
variant succeeds exactly when all flattened coordinate sequences have equal
length, and any mismatched pair (`x` vs `y`, or `u`/`v` vs `x` for Arrows)
makes construction fail with the shape-mismatch error, yielding no object
(all-or-nothing). -/
theorem construction_equal_lengths (x y u v : List ℚ) (name c : String)
    (lw : ℚ) (ls : String) (pc : PColor) (ps : PSize) (t : String)
    (ac : AColor) (pv : String)
    (hc : COLOR_OPTIONS.contains c = true)
    (hls : LS_OPTIONS.contains ls = true)
    (hpc : pointsColorCheck x.length pc = none)
    (hps : pointsSizeCheck x.length ps = none)
    (hac : arrowsColorCheck x.length ac = none) :
    (x.length = y.length →
      mkLine x y name c lw ls = .ok ⟨name, x, y, c, lw, ls⟩) ∧
    (x.length ≠ y.length →
      mkLine x y name c lw ls = .error .shapeMismatch) ∧
    (x.length = y.length →
      mkPoints x y name pc ps t = .ok ⟨name, x, y, pc, ps, t⟩) ∧
    (x.length ≠ y.length →
      mkPoints x y name pc ps t = .error .shapeMismatch) ∧
    (x.length = y.length → u.length = v.length → v.length = x.length →
      mkArrows x y u v name ac pv = .ok ⟨name, x, y, u, v, ac, pv⟩) ∧
    (x.length = y.length → ¬(u.length = v.length ∧ v.length = x.length) →
      mkArrows x y u v name ac pv = .error .shapeMismatch) ∧
    (x.length ≠ y.length →
      mkArrows x y u v name ac pv = .error .shapeMismatch) := by
  refine ⟨?_, ?_, ?_, ?_, ?_, ?_, ?_⟩
  · intro h
    have hxy : (x.length == y.length) = true := by simpa using h
    have hc' : c ∈ COLOR_OPTIONS := by simpa using hc
    have hls' : ls ∈ LS_OPTIONS := by simpa using hls
    simp [mkLine, hxy, hc', hls']
  · intro h
    have hxy : (x.length == y.length) = false := by simpa using h
    simp [mkLine, hxy]
  · intro h
    have hxy : (x.length == y.length) = true := by simpa using h
    simp [mkPoints, hxy, hpc, hps]
  · intro h
    have hxy : (x.length == y.length) = false := by simpa using h
    simp [mkPoints, hxy]
  · intro h h1 h2
    have hxy : (x.length == y.length) = true := by simpa using h
    have huv : (u.length == v.length && v.length == x.length) = true := by
      simp [h1, h2]
    simp [mkArrows, hxy, huv, hac]
  · intro h h2
    have hxy : (x.length == y.length) = true := by simpa using h
    cases hb : (u.length == v.length && v.length == x.length) with
    | false => simp [mkArrows, hxy, hb]
    | true => exact absurd (by simpa using hb) h2
  · intro h
    have hxy : (x.length == y.length) = false := by simpa using h
    simp [mkArrows, hxy]

theorem construction_equal_lengths_witness :
    mkLine [0, 1] [2, 3] "n" "k" 1 "solid" =
      .ok ⟨"n", [0, 1], [2, 3], "k", 1, "solid"⟩ ∧
    mkPoints [0, 1] [2, 3] "n" (.named "k") (.scalar 1) "." =
      .ok ⟨"n", [0, 1], [2, 3], .named "k", .scalar 1, "."⟩ ∧
    mkArrows [0, 1] [2, 3] [4] [5] "n" (.scalar 0) "mid" =
      .error .shapeMismatch ∧
    mkLine [0, 1] [2] "n" "k" 1 "solid" = .error .shapeMismatch ∧
    mkPoints [0, 1] [2] "n" (.named "k") (.scalar 1) "." =
      .error .shapeMismatch ∧
    mkArrows [0, 1] [2] [4, 5] [6, 7] "n" (.scalar 0) "mid" =
      .error .shapeMismatch ∧
    mkArrows [0, 1] [2, 3] [4, 5] [6, 7] "n" (.scalar 0) "mid" =
      .ok ⟨"n", [0, 1], [2, 3], [4, 5], [6, 7], .scalar 0, "mid"⟩ :=
  ⟨(construction_equal_lengths [0, 1] [2, 3] [4] [5] "n" "k" 1 "solid"
      (.named "k") (.scalar 1) "." (.scalar 0) "mid" (by decide) (by decide)
      (by decide) (by decide) (by decide)).1 (by decide),
   (construction_equal_lengths [0, 1] [2, 3] [4] [5] "n" "k" 1 "solid"
      (.named "k") (.scalar 1) "." (.scalar 0) "mid" (by decide) (by decide)
      (by decide) (by decide) (by decide)).2.2.1 (by decide),
   (construction_equal_lengths [0, 1] [2, 3] [4] [5] "n" "k" 1 "solid"
      (.named "k") (.scalar 1) "." (.scalar 0) "mid" (by decide) (by decide)
      (by decide) (by decide) (by decide)).2.2.2.2.2.1 (by decide)
      (by decide),
   (construction_equal_lengths [0, 1] [2] [4, 5] [6, 7] "n" "k" 1 "solid"
      (.named "k") (.scalar 1) "." (.scalar 0) "mid" (by decide) (by decide)
      (by decide) (by decide) (by decide)).2.1 (by decide),
   (construction_equal_lengths [0, 1] [2] [4, 5] [6, 7] "n" "k" 1 "solid"
      (.named "k") (.scalar 1) "." (.scalar 0) "mid" (by decide) (by decide)
      (by decide) (by decide) (by decide)).2.2.2.1 (by decide),
   (construction_equal_lengths [0, 1] [2] [4, 5] [6, 7] "n" "k" 1 "solid"
      (.named "k") (.scalar 1) "." (.scalar 0) "mid" (by decide) (by decide)
      (by decide) (by decide) (by decide)).2.2.2.2.2.2 (by decide),
   (construction_equal_lengths [0, 1] [2, 3] [4, 5] [6, 7] "n" "k" 1 "solid"
      (.named "k") (.scalar 1) "." (.scalar 0) "mid" (by decide) (by decide)
      (by decide) (by decide) (by decide)).2.2.2.2.1 (by decide) (by decide)
      (by decide)⟩

/-- C7: `Points.set_color` re-validates on every call: a numeric sequence
whose flattened length differs from the point count fails with the
shape-mismatch error and leaves the stored color unchanged; any member of
the named-color set is accepted for every point count; a string outside the
set fails with the invalid-option error. -/
theorem points_set_color_validation (p : Points) (cs : List ℚ)
    (s : String) :
    (cs.length ≠ p.xdata.length →
      Points.set_color p (.numeric cs) = (p, some Err.shapeMismatch)) ∧
    (cs.length = p.xdata.length →
      Points.set_color p (.numeric cs) =
        ({ p with c := .numeric cs }, none)) ∧
    (COLOR_OPTIONS.contains s = true →
      Points.set_color p (.named s) = ({ p with c := .named s }, none)) ∧
    (COLOR_OPTIONS.contains s = false →
      Points.set_color p (.named s) = (p, some Err.invalidOption)) := by
  refine ⟨?_, ?_, ?_, ?_⟩
  · intro h; simp [Points.set_color, pointsColorCheck, h]
  · intro h; simp [Points.set_color, pointsColorCheck, h]
  · intro h
    have h' : s ∈ COLOR_OPTIONS := by simpa using h
    simp [Points.set_color, pointsColorCheck, h']
  · intro h
    have h' : ¬s ∈ COLOR_OPTIONS := by simpa using h
    simp [Points.set_color, pointsColorCheck, h']

/-- A concrete 3-point Points artist for the C7 witness. -/
def pointsW : Points :=
  ⟨"pts", [0, 1, 2], [0, 1, 4], .named "k", .scalar 1, "."⟩

theorem points_set_color_validation_witness :
    Points.set_color pointsW (.numeric [7, 8]) =
      (pointsW, some Err.shapeMismatch) ∧
    Points.set_color pointsW (.numeric [7, 8, 9]) =
      ({ pointsW with c := .numeric [7, 8, 9] }, none) ∧
    Points.set_color pointsW (.named "g") =
      ({ pointsW with c := .named "g" }, none) ∧
    Points.set_color pointsW (.named "avocado") =
      (pointsW, some Err.invalidOption) :=
  ⟨(points_set_color_validation pointsW [7, 8] "g").1 (by decide),
   (points_set_color_validation pointsW [7, 8, 9] "g").2.1 (by decide),
   (points_set_color_validation pointsW [7, 8] "g").2.2.1 (by decide),
   (points_set_color_validation pointsW [7, 8] "avocado").2.2.2
     (by decide)⟩

/-- C10: the linestyle token set the source builds is exactly the seven
tokens with `'--'` and `':'` fused into `'--:'` by the missing comma, so
`set_linestyle` (and construction, on Line and on Straight which inherits
it) rejects the common tokens `'--'` and `':'` with the invalid-option error
while accepting `'--:'`. -/
theorem ls_options_missing_comma :
    LS_OPTIONS = ["solid", "dashed", "dotted", "dashdot", "-", "--:", "-."] ∧
    (∀ l : Line,
      Line.set_linestyle l "--" = (l, some Err.invalidOption) ∧
      Line.set_linestyle l ":" = (l, some Err.invalidOption) ∧
      Line.set_linestyle l "--:" = ({ l with ls := "--:" }, none) ∧
      Line.set_linestyle l "-." = ({ l with ls := "-." }, none)) ∧
    (∀ x y : List ℚ, ∀ name c : String, ∀ lw : ℚ,
      x.length = y.length → COLOR_OPTIONS.contains c = true →
      mkLine x y name c lw "--" = .error Err.invalidOption ∧
      mkLine x y name c lw ":" = .error Err.invalidOption ∧
      mkLine x y name c lw "--:" = .ok ⟨name, x, y, c, lw, "--:"⟩) ∧
    (∀ xq yq dx dy : ℚ, ∀ name c : String, ∀ lw : ℚ,
      COLOR_OPTIONS.contains c = true →
      mkStraight xq yq dx dy name c lw "--" = .error Err.invalidOption ∧
      mkStraight xq yq dx dy name c lw "--:" =
        .ok ⟨name, [xq], [yq], dx, dy, c, lw, "--:"⟩) := by
  refine ⟨rfl, ?_, ?_, ?_⟩
  · intro l
    refine ⟨?_, ?_, ?_, ?_⟩ <;> simp [Line.set_linestyle, LS_OPTIONS]
  · intro x y name c lw h hc
    have hxy : (x.length == y.length) = true := by simpa using h
    have hc' : c ∈ COLOR_OPTIONS := by simpa using hc
    refine ⟨?_, ?_, ?_⟩ <;> simp [mkLine, hxy, hc', LS_OPTIONS]
  · intro xq yq dx dy name c lw hc
    have hc' : c ∈ COLOR_OPTIONS := by simpa using hc
    refine ⟨?_, ?_⟩ <;> simp [mkStraight, hc', LS_OPTIONS]

theorem ls_options_missing_comma_witness :
    (([0] : List ℚ).length = ([1] : List ℚ).length ∧
      COLOR_OPTIONS.contains "k" = true) ∧
    (mkLine [0] [1] "n" "k" 1 "--" = .error Err.invalidOption ∧
      mkLine [0] [1] "n" "k" 1 ":" = .error Err.invalidOption ∧
      mkLine [0] [1] "n" "k" 1 "--:" = .ok ⟨"n", [0], [1], "k", 1, "--:"⟩) :=
  ⟨⟨by decide, by decide⟩,
   (ls_options_missing_comma.2.2.1) [0] [1] "n" "k" 1 (by decide)
     (by decide)⟩

/-- The claim's gathered x set: all registered artists' x-coordinates in
registry order with the flattened mesh grid appended after them. -/
def xcat (fig : FigState) : List ℚ :=
  (fig.artists.map (fun e => e.2.get_xdata)).flatten ++
    (match fig.colorMesh with
     | some m => m.X.flatten
     | none => [])

/-- The claim's gathered y set. -/
def ycat (fig : FigState) : List ℚ :=
  (fig.artists.map (fun e => e.2.get_ydata)).flatten ++
    (match fig.colorMesh with
     | some m => m.Y.flatten
     | none => [])

lemma gatherX_of_artists_ne_nil (fig : FigState) (ha : fig.artists ≠ []) :
    gatherX fig = xcat fig := by
  have h0 : (fig.artists.length == 0) = false := by
    simpa [List.length_eq_zero] using ha
  simp only [gatherX, xcat, h0, Bool.false_eq_true, if_false]

lemma gatherY_of_artists_ne_nil (fig : FigState) (ha : fig.artists ≠ []) :
    gatherY fig = ycat fig := by
  have h0 : (fig.artists.length == 0) = false := by
    simpa [List.length_eq_zero] using ha
  simp only [gatherY, ycat, h0, Bool.false_eq_true, if_false]

/-- C4: on a figure with at least one registered artist, `update_scale`
under policy `width` sets the x-limits to the min and max of the
concatenation of all artists' x-coordinates followed by the flattened mesh
x grid (leaving the y-limits alone), policy `height` does the symmetric
thing for y, and policy `all` sets both. -/
theorem update_scale_applies_extents (fig : FigState)
    (xmin xmax ymin ymax : ℚ) (ha : fig.artists ≠ [])
    (hx1 : npMin (xcat fig) = some xmin)
    (hx2 : npMax (xcat fig) = some xmax)
    (hy1 : npMin (ycat fig) = some ymin)
    (hy2 : npMax (ycat fig) = some ymax) :
    (fig.autoscale = "width" →
      update_scale fig = ({ fig with xlim := some (xmin, xmax) }, none)) ∧
    (fig.autoscale = "height" →
      update_scale fig = ({ fig with ylim := some (ymin, ymax) }, none)) ∧
    (fig.autoscale = "all" →
      update_scale fig = ({ fig with xlim := some (xmin, xmax),
                                     ylim := some (ymin, ymax) }, none)) := by
  have hlen : 0 < fig.artists.length := List.length_pos.mpr ha
  have hx1' := (gatherX_of_artists_ne_nil fig ha).symm ▸ hx1
  have hx2' := (gatherX_of_artists_ne_nil fig ha).symm ▸ hx2
  have hy1' := (gatherY_of_artists_ne_nil fig ha).symm ▸ hy1
  have hy2' := (gatherY_of_artists_ne_nil fig ha).symm ▸ hy2
  refine ⟨?_, ?_, ?_⟩ <;> intro hp <;>
    simp [update_scale, hlen, hx1', hx2', hy1', hy2', hp]

/-- A concrete figure holding two lines with x-ranges `[0, 10]` and
`[-5, 3]` under policy `all`, for the C4 witness. -/
def figTwoLines : FigState :=
  { artists :=
      [("f", Artist.line ⟨"f", [0, 10], [0, 0], "k", 1, "solid"⟩),
       ("g", Artist.line ⟨"g", [-5, 3], [1, 1], "k", 1, "solid"⟩)]
    mplArtists :=
      [("f", ⟨Artist.line ⟨"f", [0, 10], [0, 0], "k", 1, "solid"⟩, "f",
        true⟩),
       ("g", ⟨Artist.line ⟨"g", [-5, 3], [1, 1], "k", 1, "solid"⟩, "g",
        true⟩)]
    colorMesh := none
    autoscale := "all"
    xlim := none
    ylim := none
    legend := { artists := [], visible := false }
    colorbars := [] }

theorem update_scale_applies_extents_witness :
    update_scale figTwoLines =
      ({ figTwoLines with xlim := some (-5, 10), ylim := some (0, 1) },
       none) :=
  (update_scale_applies_extents figTwoLines (-5) 10 0 1 (by decide)
    (by decide) (by decide) (by decide) (by decide)).2.2 rfl

/-- C5 counterexample: a `Line` with empty (but equal-length) coordinate
arrays constructs fine and registers fine, yet `update_scale` on the
resulting figure raises numpy's empty-reduction `ValueError` even though
the policy is `none`, because the min/max pass runs before the policy
dispatch — so policy `none` is not unconditionally raise-free. -/
def figEmptyLine : FigState :=
  (add_artist emptyFig (Artist.line ⟨"l", [], [], "k", 1, "solid"⟩)
    "" false).1

theorem update_scale_none_not_noop :
    mkLine [] [] "l" "k" 1 "solid" = .ok ⟨"l", [], [], "k", 1, "solid"⟩ ∧
    figEmptyLine.autoscale = "none" ∧
    (update_scale figEmptyLine).2 = some Err.valueError := by
  refine ⟨by rfl, rfl, by decide⟩

/-- C5 (amended): `update_scale` is a no-op returning normally whenever the
registry holds zero artists and zero mesh (regardless of policy), and
whenever the policy is `none` PROVIDED the gathered coordinate data is
non-empty; with a registered artist whose data is empty the min/max pass
raises even under policy `none`. -/
theorem update_scale_noop_cases (fig : FigState)
    (xmin xmax ymin ymax : ℚ) :
    (fig.artists = [] → fig.colorMesh = none →
      update_scale fig = (fig, none)) ∧
    (fig.autoscale = "none" →
      npMin (gatherX fig) = some xmin → npMax (gatherX fig) = some xmax →
      npMin (gatherY fig) = some ymin → npMax (gatherY fig) = some ymax →
      update_scale fig = (fig, none)) := by
  constructor
  · intro h1 h2
    simp [update_scale, h1, h2]
  · intro hp hx1 hx2 hy1 hy2
    by_cases ha : fig.artists = []
    · cases hm : fig.colorMesh with
      | none =>
          simp [update_scale, ha, hm]
      | some m =>
          simp [update_scale, ha, hm, hx1, hx2, hy1, hy2, hp]
    · have hlen : 0 < fig.artists.length := List.length_pos.mpr ha
      simp [update_scale, hlen, hx1, hx2, hy1, hy2, hp]

theorem update_scale_noop_cases_witness :
    (update_scale emptyFig = (emptyFig, none)) ∧
    (update_scale figOneLine = (figOneLine, none)) :=
  ⟨(update_scale_noop_cases emptyFig 0 0 0 0).1 rfl rfl,
   (update_scale_noop_cases figOneLine 0 0 0 0).2 rfl (by decide)
     (by decide) (by decide) (by decide)⟩

/-- The one-line figure with its line selected into the legend, for C2. -/
def figLegendA : FigState :=
  (legendAdd figOneLine (Selector.listSel ["a"])).1

/-- C2 (code evaluation at the failing input): `remove_artist` succeeds but
does not notify the legend, so immediately after it returns the legend's
subset still holds the removed name while the registry no longer does — the
subset-of-registry-keys invariant is violated and a dangling legend entry is
observable (a later `Legend._update` on this state raises `KeyError`). -/
theorem remove_artist_leaves_legend_dangling :
    (legendAdd figOneLine (Selector.listSel ["a"])).2 = none ∧
    keyMem figLegendA.legend.artists "a" = true ∧
    (remove_artist figLegendA "a").2 = none ∧
    keyMem (remove_artist figLegendA "a").1.artists "a" = false ∧
    keyMem (remove_artist figLegendA "a").1.legend.artists "a" = true ∧
    (legendUpdate (remove_artist figLegendA "a").1).2 =
      some Err.keyError := by
  refine ⟨by decide, by decide, by decide, by decide, by decide, by decide⟩

/-- A figure with two lines `a`, `b`, both selected into the legend, for the
C3 counterexample. -/
def figABLegend : FigState :=
  (legendAdd (add_artist figOneLine lineB "" false).1
    (Selector.listSel ["a", "b"])).1

/-- C3 counterexample: `Legend.remove(["a", "zzz"])` on a legend holding
`{a, b}` fails on the invalid name `zzz` but has already popped `a`, so the
subset is NOT left exactly as it was before the call — partial removal is
observable. -/
theorem legend_remove_partial_counterexample :
    figABLegend.legend.artists.map Prod.fst = ["a", "b"] ∧
    (legendRemove figABLegend (Selector.listSel ["a", "zzz"])).2 =
      some Err.invalidSelection ∧
    (legendRemove figABLegend
      (Selector.listSel ["a", "zzz"])).1.legend.artists.map Prod.fst =
      ["b"] := by
  refine ⟨by decide, by decide, by decide⟩

lemma keyMem_dictPop_ne (l : List (String × α)) (m n : String)
    (h : n ≠ m) : keyMem (dictPop l m) n = keyMem l n := by
  induction l with
  | nil => rfl
  | cons e t ih =>
      by_cases he : e.1 = m
      · have hd : dictPop (e :: t) m = dictPop t m := by
          simp [dictPop, List.filter_cons, he]
        have hne : (e.1 == n) = false := by
          rw [he]
          exact beq_false_of_ne (fun hh => h hh.symm)
        rw [hd, ih]
        simp [keyMem, List.any_cons, hne]
      · have hd : dictPop (e :: t) m = e :: dictPop t m := by
          simp [dictPop, List.filter_cons, he]
        rw [hd]
        simp only [keyMem, List.any_cons]
        rw [show (dictPop t m).any (fun e => e.1 == n) = keyMem (dictPop t m) n
          from rfl, ih]
        rfl

/-- The fold `Legend.remove` effectively performs on the subset over a run
of valid names: pop them one after another. -/
def popAll (sub : List (String × Artist)) (pre : List String) :
    List (String × Artist) :=
  pre.foldl (fun s n => dictPop s n) sub

lemma legendRemoveGo_prefix (fig : FigState) (bad : String)
    (post : List String) (hbad : validSel fig bad = false) :
    ∀ pre : List String, ∀ sub : List (String × Artist), pre.Nodup →
      (∀ n ∈ pre, validSel fig n = true ∧ keyMem sub n = true) →
      legendRemoveGo fig sub (pre ++ bad :: post) =
        (popAll sub pre, some Err.invalidSelection) := by
  intro pre
  induction pre with
  | nil => intro sub _ _; simp [legendRemoveGo, hbad, popAll]
  | cons m t ih =>
      intro sub hnd hall
      have hm := hall m (by simp)
      have hstep : popAll sub (m :: t) = popAll (dictPop sub m) t := rfl
      rw [hstep]
      simp only [List.cons_append, legendRemoveGo, hm.1, hm.2, if_true]
      exact ih (dictPop sub m) (List.nodup_cons.mp hnd).2
        (fun n hn => ⟨(hall n (by simp [hn])).1, by
          rw [keyMem_dictPop_ne]
          · exact (hall n (by simp [hn])).2
          · exact fun hh => (List.nodup_cons.mp hnd).1 (hh ▸ hn)⟩)

/-- C3 (amended): `Legend.add` with an explicit sequence validates every
name before mutating, so any invalid name aborts the call with the
invalid-selection error and the subset exactly unchanged (no partial add);
`Legend.remove` with an explicit sequence, however, validates and pops one
name at a time, so on the first invalid name it raises the same error but
the (distinct) valid names before it have already been removed from the
subset — partial removal is observable. -/
theorem legend_add_atomic_remove_partial (fig : FigState)
    (ns pre post : List String) (bad : String)
    (hinv : ns.all (fun n => validSel fig n) = false)
    (hnd : pre.Nodup)
    (hpre : ∀ n ∈ pre, validSel fig n = true ∧
      keyMem fig.legend.artists n = true)
    (hbad : validSel fig bad = false) :
    legendAdd fig (Selector.listSel ns) =
      (fig, some Err.invalidSelection) ∧
    legendRemove fig (Selector.listSel (pre ++ bad :: post)) =
      ({ fig with legend :=
          { fig.legend with artists := popAll fig.legend.artists pre } },
       some Err.invalidSelection) := by
  constructor
  · simp [legendAdd, hinv]
  · have h := legendRemoveGo_prefix fig bad post hbad pre
      fig.legend.artists hnd hpre
    simp [legendRemove, h]

theorem legend_add_atomic_remove_partial_witness :
    legendAdd figABLegend (Selector.listSel ["qq"]) =
      (figABLegend, some Err.invalidSelection) ∧
    legendRemove figABLegend (Selector.listSel (["a"] ++ "zzz" :: [])) =
      ({ figABLegend with legend :=
          { figABLegend.legend with
            artists := popAll figABLegend.legend.artists ["a"] } },
       some Err.invalidSelection) :=
  legend_add_atomic_remove_partial figABLegend ["qq"] ["a"] [] "zzz"
    (by decide) (by decide) (by decide) (by decide)

/-- C8 counterexample: with no artists and no mesh, `add_colorbar()` with
the name omitted does not fail with the not-found error the claim names; it
dereferences the absent mesh (`None.get_color()`), a Python
`AttributeError`. -/
theorem add_colorbar_no_mesh_counterexample :
    emptyFig.colorMesh = none ∧
    add_colorbar emptyFig none = (emptyFig, some Err.attributeError) ∧
    Err.attributeError ≠ Err.notFound := by
  refine ⟨rfl, by decide, by decide⟩

/-- C8 (amended): `add_colorbar` with a name absent from the registry fails
with the not-found error; with the name omitted and no mesh present it
fails with an `AttributeError` (unchecked `None` access), not not-found;
with the name omitted and a mesh present it attaches a colorbar keyed to
the linear normalization over the mesh's color range `[min, max]` and the
mesh's colormap; and for an existing named artist it computes the
normalization but then raises `AttributeError`, because no Artist class in
the repository carries a colormap attribute (`get_cmap`). -/
theorem add_colorbar_resolution (fig : FigState) (n : String) (a : Artist)
    (m : ColorMesh) (mn mx : ℚ) :
    (dictGet fig.artists n = none →
      add_colorbar fig (some n) = (fig, some Err.notFound)) ∧
    (fig.colorMesh = none →
      add_colorbar fig none = (fig, some Err.attributeError)) ∧
    (fig.colorMesh = some m → npMin m.C.flatten = some mn →
      npMax m.C.flatten = some mx →
      add_colorbar fig none =
        ({ fig with colorbars := fig.colorbars ++ [⟨mn, mx, m.cmap⟩] },
         none)) ∧
    (dictGet fig.artists n = some a → a.get_color ≠ ColorData.arr [] →
      add_colorbar fig (some n) = (fig, some Err.attributeError)) := by
  refine ⟨?_, ?_, ?_, ?_⟩
  · intro h; simp [add_colorbar, h]
  · intro h; simp [add_colorbar, h]
  · intro h h1 h2; simp [add_colorbar, h, h1, h2]
  · intro h hnc
    have hred : add_colorbar fig (some n) =
        (match a.get_color with
         | .arr [] => (fig, some Err.valueError)
         | _ => (fig, some Err.attributeError)) := by
      simp only [add_colorbar, h]
    rw [hred]
    cases hcol : a.get_color with
    | s v => rfl
    | q v => rfl
    | arr vs =>
        cases vs with
        | nil => exact absurd hcol hnc
        | cons hd tl => rfl

/-- A figure holding only a 2x2 mesh with color grid `[[5,6],[7,8]]`, for
the C8 witness. -/
def figMesh : FigState :=
  { emptyFig with
    colorMesh :=
      some ⟨[[0, 1], [0, 1]], [[0, 0], [1, 1]], [[5, 6], [7, 8]],
        "plasma"⟩ }

theorem add_colorbar_resolution_witness :
    add_colorbar figMesh (some "zz") = (figMesh, some Err.notFound) ∧
    add_colorbar emptyFig none = (emptyFig, some Err.attributeError) ∧
    add_colorbar figMesh none =
      ({ figMesh with colorbars := figMesh.colorbars ++
          [⟨5, 8, "plasma"⟩] }, none) ∧
    add_colorbar figOneLine (some "a") =
      (figOneLine, some Err.attributeError) :=
  ⟨(add_colorbar_resolution figMesh "zz"
      (Artist.line ⟨"a", [0], [0], "k", 1, "solid"⟩)
      ⟨[[0, 1], [0, 1]], [[0, 0], [1, 1]], [[5, 6], [7, 8]], "plasma"⟩
      5 8).1 (by decide),
   (add_colorbar_resolution emptyFig "zz"
      (Artist.line ⟨"a", [0], [0], "k", 1, "solid"⟩)
      ⟨[[0, 1], [0, 1]], [[0, 0], [1, 1]], [[5, 6], [7, 8]], "plasma"⟩
      5 8).2.1 rfl,
   (add_colorbar_resolution figMesh "zz"
      (Artist.line ⟨"a", [0], [0], "k", 1, "solid"⟩)
      ⟨[[0, 1], [0, 1]], [[0, 0], [1, 1]], [[5, 6], [7, 8]], "plasma"⟩
      5 8).2.2.1 (by rfl) (by decide) (by decide),
   (add_colorbar_resolution figOneLine "a"
      (Artist.line ⟨"a", [0], [0], "k", 1, "solid"⟩)
      ⟨[[0, 1], [0, 1]], [[0, 0], [1, 1]], [[5, 6], [7, 8]], "plasma"⟩
      5 8).2.2.2 (by decide) (by decide)⟩

end Pygraph
